import Mathlib

/-!
Shallow embedding of `micro_diffusion/models/dit.py` and proofs about it.

Conventions of the embedding:
* tensors are total functions out of `Fin`-indexed shapes with exact rational
  entries (`ℚ` models the float values; float rounding is outside the model);
* Python `int(...)` on a float is truncation toward zero, modelled by `pyInt`;
* fallible Python code (assertions, `ZeroDivisionError`, `AttributeError`,
  out-of-range `torch.topk`) is modelled in `Except String`;
* the transcendental kernels the source calls (`exp` inside `F.softmax`,
  `GELU`) are taken as explicit function parameters of the model;
* collaborator modules that `dit.py` imports from `models/modules.py`
  (`create_norm`, `SelfAttention`, `CrossAttention`) are opaque
  shape-preserving operator fields, following their contracts in the spec.
-/

namespace DiT

/-- Python `int(...)` applied to an exact rational value: truncation toward
zero (equal to `floor` on nonnegative values). -/
def pyInt (q : ℚ) : ℤ := if 0 ≤ q then ⌊q⌋ else ⌈q⌉

/-- A rank-2 tensor of shape `(B, C)` with rational entries. -/
abbrev Tensor2 (B C : ℕ) := Fin B → Fin C → ℚ

/-- A rank-3 tensor of shape `(B, T, C)` with rational entries. -/
abbrev Tensor3 (B T C : ℕ) := Fin B → Fin T → Fin C → ℚ

/-- `Except` result is a success. -/
def exceptIsOk {α : Type} : Except String α → Bool
  | .ok _ => true
  | .error _ => false

/-- Modelled from the spec: `modulate` lives in `models/modules.py`, which is
not under `src/`.  Spec section 6: `modulate(h, shift, scale)` is the
elementwise affine transform `h * (1 + scale.unsqueeze(1)) + shift.unsqueeze(1)`
broadcasting the `(B, C)` shift/scale across the token axis of a `(B, T, C)`
input. -/
def modulate {B T C : ℕ} (h : Tensor3 B T C) (shift scale : Tensor2 B C) :
    Tensor3 B T C :=
  fun b t c => h b t c * (1 + scale b c) + shift b c

/-- `hidden_base_mult * ((n_hidden + hidden_base_mult - 1) // hidden_base_mult)`,
the hidden-width round-up computed at `dit.py` line 61 (`FeedForwardNetwork`)
and line 93 (`FeedForwardECMoe`).  Python `//` raises `ZeroDivisionError` when
`hidden_base_mult = 0`. -/
def roundUpMult (n_hidden hidden_base_mult : ℕ) : Except String ℕ :=
  if hidden_base_mult = 0 then
    .error "ZeroDivisionError: integer division or modulo by zero"
  else
    .ok (hidden_base_mult * ((n_hidden + hidden_base_mult - 1) / hidden_base_mult))

/-- Result of a completed `FeedForwardNetwork.__init__` (`dit.py` lines 57-64):
the stored hidden width.  The store of `int(2*n_hidden/3)` at line 60 is dead,
overwritten at line 61. -/
structure FFNCtor where
  n_hidden : ℕ

/-- `FeedForwardNetwork.__init__` (`dit.py` lines 57-64).  `super().__init__()`
is called first, so the `nn.Linear` assignments succeed; the only failure point
is the `//` at line 61. -/
def FeedForwardNetwork.init (n_embd n_hidden hidden_base_mult : ℕ)
    (use_bias : Bool) : Except String FFNCtor := do
  let _ := n_embd
  let _ := use_bias
  -- line 60: self.n_hidden = int(2*n_hidden/3), immediately overwritten
  let _nh23 : ℤ := pyInt ((2 * n_hidden : ℚ) / 3)
  -- line 61: self.n_hidden = hidden_base_mult * ((n_hidden + hidden_base_mult - 1) // hidden_base_mult)
  let nH ← roundUpMult n_hidden hidden_base_mult
  return ⟨nH⟩

/-- Standard deviations that `FeedForwardNetwork.custom_init` (`dit.py`
lines 69-72) passes to `nn.init.trunc_normal_` for each weight: the random
draw itself is modelled by recording the distribution parameter assigned to
each of the three linear layers. -/
structure FFNInitStds where
  fc1 : ℚ
  fc2 : ℚ
  fc3 : ℚ

/-- `FeedForwardNetwork.custom_init` (`dit.py` lines 69-72):
`trunc_normal_(fc1.weight, std=0.02)`, then the loop
`for linear in (fc2, fc3): trunc_normal_(linear.weight, std=init_std)`. -/
def FeedForwardNetwork.custom_init (init_std : ℚ) : FFNInitStds :=
  ⟨0.02, init_std, init_std⟩

/-- Model of `nn.Module.__setattr__` for `nn.Module` / `nn.Parameter` values:
when the `nn.Module` base-class initializer has not run, the `_modules` /
`_parameters` dictionaries do not exist and PyTorch raises `AttributeError`.
Plain (non-module, non-parameter) attribute assignments fall through to
`object.__setattr__` and succeed. -/
def moduleAssign (superInitCalled : Bool) (kind : String) : Except String Unit :=
  if superInitCalled then .ok ()
  else .error ("AttributeError: cannot assign " ++ kind ++ " before Module init call")

/-- The attributes a completed `FeedForwardECMoe.__init__` would store. -/
structure ECMoeCtor where
  num_experts : ℕ
  expert_capacity : ℚ
  n_embd : ℕ
  hidden_base_mult : ℕ
  n_hidden : ℕ

/-- `FeedForwardECMoe.__init__` (`dit.py` lines 85-103).  The method never
calls `super().__init__()`, so `superInitCalled` is `false` throughout; the
plain attribute stores (lines 86-93) succeed, and the first submodule
assignment `self.gate = nn.Linear(...)` (line 96) raises.  When
`hidden_base_mult = 0` the `//` at line 93 raises even earlier. -/
def FeedForwardECMoe.init (num_experts : ℕ) (expert_capacity : ℚ)
    (n_embd n_hidden hidden_base_mult : ℕ) : Except String ECMoeCtor := do
  let superInitCalled := false
  -- lines 86-92: plain attribute assignments, succeed
  -- line 93: self.n_hidden = hidden_base_mult * ((n_hidden + hidden_base_mult - 1) // hidden_base_mult)
  let nH ← roundUpMult n_hidden hidden_base_mult
  -- line 96: self.gate = nn.Linear (n_embd, num_experts, bias=False)
  let _ ← moduleAssign superInitCalled "module"
  -- line 99: self.w1 = nn.Parameter (torch.ones (num_experts, n_embd, n_hidden))
  let _ ← moduleAssign superInitCalled "parameter"
  -- line 103: self.w2 = nn.Parameter (torch.ones (num_experts, n_hidden, n_embd))
  let _ ← moduleAssign superInitCalled "parameter"
  return ⟨num_experts, expert_capacity, n_embd, hidden_base_mult, nH⟩

/-- `tokens_per_expert = int(self.expert_capacity * T / self.num_experts)`
(`dit.py` line 111). -/
def tokensPerExpert (expert_capacity : ℚ) (T num_experts : ℕ) : ℤ :=
  pyInt (expert_capacity * T / num_experts)

/-- The self-attention hidden width derived in `DiTBlock.__init__`
(`dit.py` lines 198-203): `n_embd` itself when `qkv_n_hidden_mult == 1`,
otherwise `int(qkv_n_hidden_mult * n_embd)` rounded up to the next multiple
of `2 * head_size` (Python `//` is floor division, `Int.fdiv`). -/
def qkvNHidden (n_embd head_size : ℕ) (qkv_n_hidden_mult : ℚ) : ℤ :=
  if qkv_n_hidden_mult = 1 then (n_embd : ℤ)
  else
    2 * (head_size : ℤ) *
      Int.fdiv (pyInt (qkv_n_hidden_mult * n_embd) + 2 * (head_size : ℤ) - 1)
        (2 * (head_size : ℤ))

/-- `self.weight_init_std` computed in `DiTBlock.__init__` (`dit.py`
lines 234-237): `0.02 / (3 * (block_index + 1)) ** 0.5` when `depth_init`,
else `0.02 / (3 * num_blocks) ** 0.5`.  Stated over `ℝ` because the value is
irrational; the float `** 0.5` is real exponentiation in the model. -/
noncomputable def weight_init_std (depth_init : Bool)
    (block_index num_blocks : ℕ) : ℝ :=
  if depth_init then 0.02 / ((3 * (block_index + 1) : ℕ) : ℝ) ^ (0.5 : ℝ)
  else 0.02 / ((3 * num_blocks : ℕ) : ℝ) ^ (0.5 : ℝ)

/-- The scalar configuration a completed `DiTBlock.__init__` stores
(`dit.py` lines 175-237), apart from `weight_init_std` which is kept as the
separate function `weight_init_std`. -/
structure DiTBlockCtor where
  n_embd : ℕ
  qkv_n_hidden : ℤ
  cx_attn_n_hidden : ℤ
  mlp_n_hidden : ℕ
  use_moe : Bool
  depth_init : Bool
  block_index : ℕ
  num_blocks : ℕ

/-- `DiTBlock.__init__` (`dit.py` lines 175-237): the divisibility assertion
(line 196), the derived hidden widths (lines 198-203, 213, 218) and the
choice between `FeedForwardECMoe` and `FeedForwardNetwork` (lines 219-224).
Collaborator constructions (`create_norm`, `SelfAttention`, `CrossAttention`,
the AdaLN `nn.Sequential`) run after `super().__init__()` and succeed.
`mlp_n_hidden = int(n_embd * mlp_n_hidden_mult)` is nonnegative for the
nonnegative multipliers of any real configuration, so it is stored as `ℕ`. -/
def DiTBlock.init (n_embd head_size : ℕ)
    (mlp_n_hidden_mult qkv_n_hidden_mult : ℚ)
    (hidden_base_mult pooled_caption_n_embd : ℕ) (depth_init : Bool)
    (block_index num_blocks : ℕ)
    (scale_cx_attn_n_hidden use_bias use_moe : Bool)
    (num_experts : ℕ) (expert_capacity : ℚ) : Except String DiTBlockCtor :=
  if n_embd % head_size ≠ 0 then
    .error "AssertionError: n_embd is not divisible by head_size"
  else
    let _ := pooled_caption_n_embd
    let qkv := qkvNHidden n_embd head_size qkv_n_hidden_mult
    let cx : ℤ := if scale_cx_attn_n_hidden then qkv else (n_embd : ℤ)
    let mlpNH : ℕ := (pyInt (mlp_n_hidden_mult * n_embd)).toNat
    let mlpBuild : Except String Unit :=
      if use_moe then
        (FeedForwardECMoe.init num_experts expert_capacity n_embd mlpNH
          hidden_base_mult).map (fun _ => ())
      else
        (FeedForwardNetwork.init n_embd mlpNH hidden_base_mult use_bias).map
          (fun _ => ())
    mlpBuild.bind (fun _ =>
      .ok ⟨n_embd, qkv, cx, mlpNH, use_moe, depth_init, block_index, num_blocks⟩)

/-- Parameters of a (hypothetical) `FeedForwardECMoe` instance with `E`
experts, channel width `C` and hidden width `H`: the capacity factor, the
bias-free gate weight (`nn.Linear (n_embd, num_experts, bias=False)`, weight
shape `(E, C)`), and the expert tensors `w1 : (E, C, H)`, `w2 : (E, H, C)`
(`dit.py` lines 96-103). -/
structure FeedForwardECMoe (E C H : ℕ) where
  expert_capacity : ℚ
  gateW : Fin E → Fin C → ℚ
  w1 : Fin E → Fin C → Fin H → ℚ
  w2 : Fin E → Fin H → Fin C → ℚ

/-- `scores = self.gate (x)` (`dit.py` line 114): the bias-free linear layer,
`scores[b,t,e] = sum_c gateW[e,c] * x[b,t,c]`, shape `(B, T, E)`. -/
def FeedForwardECMoe.scores {E C H B T : ℕ} (moe : FeedForwardECMoe E C H)
    (x : Tensor3 B T C) : Fin B → Fin T → Fin E → ℚ :=
  fun b t e => ∑ c, moe.gateW e c * x b t c

/-- `probs = F.softmax (scores, dim=-1)` (`dit.py` line 115), with the float
exponential modelled by the explicit parameter `expF`. -/
def FeedForwardECMoe.probs {E C H B T : ℕ} (moe : FeedForwardECMoe E C H)
    (expF : ℚ → ℚ) (x : Tensor3 B T C) : Fin B → Fin T → Fin E → ℚ :=
  fun b t e =>
    expF (moe.scores x b t e) / ∑ e2, expF (moe.scores x b t e2)

/-- `probs_expert_looking_at_all_tokens = probs.permute(0, 2, 1)`
(`dit.py` line 117), shape `(B, E, T)`. -/
def FeedForwardECMoe.probsT {E C H B T : ℕ} (moe : FeedForwardECMoe E C H)
    (expF : ℚ → ℚ) (x : Tensor3 B T C) : Fin B → Fin E → Fin T → ℚ :=
  fun b e t => moe.probs expF x b t e

/-- `torch.topk (v, k, dim=-1)` along a length-`T` axis: the first `k` indices
of the axis sorted by decreasing value (ties broken toward the smaller index,
and `torch.topk` returns the selected values in sorted order). -/
def topkIdx {T : ℕ} (v : Fin T → ℚ) (k : ℕ) : List (Fin T) :=
  ((List.finRange T).mergeSort (fun i j =>
    decide (v j < v i) || (decide (v i = v j) && decide (i ≤ j)))).take k

/-- The token indices expert `e` selects for batch element `b`
(`expert_specific_tokens[b,e]`, `dit.py` line 121), as the list of its
`tokens_per_expert` top-probability tokens. -/
def FeedForwardECMoe.selected {E C H B T : ℕ} (moe : FeedForwardECMoe E C H)
    (expF : ℚ → ℚ) (x : Tensor3 B T C) (b : Fin B) (e : Fin E) :
    List (Fin T) :=
  topkIdx (moe.probsT expF x b e) (tokensPerExpert moe.expert_capacity T E).toNat

/-- One entry of `extract_from_x_one_hot = F.one_hot(expert_specific_tokens,
num_classes=T)` (`dit.py` line 125). -/
def oneHot {T : ℕ} (i t : Fin T) : ℚ := if i = t then 1 else 0

/-- The two expert projections with the GELU in between (`dit.py`
lines 131-133) applied to the channel vector of one expert slot:
`sum_h gelu(sum_c v[c] * w1[e,c,h]) * w2[e,h,c']`. -/
def FeedForwardECMoe.expertOut {E C H : ℕ} (moe : FeedForwardECMoe E C H)
    (geluF : ℚ → ℚ) (e : Fin E) (v : Fin C → ℚ) : Fin C → ℚ :=
  fun c => ∑ h, geluF (∑ c2, v c2 * moe.w1 e c2 h) * moe.w2 e h c

/-- The output tensor of `FeedForwardECMoe.forward` (`dit.py` lines 125-139):
for each expert slot, gather the token through the one-hot tensor
(`xin = einsum ('BElT, BTC -> BElC', ...)`), run the expert, scale by the
expert-specific token probability (line 136), and scatter-add back through the
same one-hot tensor (`out = einsum ('BElC, BElT -> BTC', ...)`). -/
def FeedForwardECMoe.out {E C H B T : ℕ} (moe : FeedForwardECMoe E C H)
    (expF geluF : ℚ → ℚ) (x : Tensor3 B T C) : Tensor3 B T C :=
  fun b t c =>
    ∑ e, ((moe.selected expF x b e).map (fun i =>
      moe.expertOut geluF e (fun ch => ∑ t2, oneHot i t2 * x b t2 ch) c
        * moe.probsT expF x b e i * oneHot i t)).sum

/-- `FeedForwardECMoe.forward` (`dit.py` lines 105-140).  The input is rank-3
by type (`assert x.dim() == 3`).  `num_experts = 0` makes line 111 raise
`ZeroDivisionError`; `torch.topk` (line 121) raises when
`tokens_per_expert` is negative or exceeds the axis length `T`. -/
def FeedForwardECMoe.forward {E C H B T : ℕ} (moe : FeedForwardECMoe E C H)
    (expF geluF : ℚ → ℚ) (x : Tensor3 B T C) : Except String (Tensor3 B T C) :=
  if E = 0 then .error "ZeroDivisionError: division by zero"
  else
    let k := tokensPerExpert moe.expert_capacity T E
    if 0 ≤ k ∧ k ≤ (T : ℤ) then .ok (moe.out expF geluF x)
    else .error "RuntimeError: selected index k out of range"

/-- Runtime state of a `DiTBlock` as `forward` (`dit.py` lines 244-256) uses
it: the three norms and the attention / cross-attention / feed-forward
operators are the external collaborators of spec section 6, modelled as opaque
shape-respecting operator fields; `AdaLN_modulation` (lines 226-229) is the
tanh-GELU nonlinearity (modelled by the field `geluTanh`) followed by a
`nn.Linear (pooled_caption_n_embd, 6*n_embd)` with weight `adaW` and bias
`adaB`. -/
structure DiTBlockRun (B T Tc C Cp : ℕ) where
  ln1 : Tensor3 B T C → Tensor3 B T C
  ln2 : Tensor3 B T C → Tensor3 B T C
  ln3 : Tensor3 B T C → Tensor3 B T C
  attnF : Tensor3 B T C → Tensor3 B T C
  cxAttnF : Tensor3 B T C → Tensor3 B Tc C → Tensor3 B T C
  mlpF : Tensor3 B T C → Tensor3 B T C
  adaW : Fin (6 * C) → Fin Cp → ℚ
  adaB : Fin (6 * C) → ℚ
  geluTanh : ℚ → ℚ

/-- `self.AdaLN_modulation (t)` (`dit.py` line 247): elementwise tanh-GELU,
then the linear map to `6 * n_embd` channels. -/
def DiTBlockRun.adaLN {B T Tc C Cp : ℕ} (blk : DiTBlockRun B T Tc C Cp)
    (t : Tensor2 B Cp) : Fin B → Fin (6 * C) → ℚ :=
  fun b j => (∑ p, blk.adaW j p * blk.geluTanh (t b p)) + blk.adaB j

lemma six_chunk_lt {i j C : ℕ} (hi : i < 6) (hj : j < C) :
    i * C + j < 6 * C := by
  have h1 : i * C + j < i * C + C := Nat.add_lt_add_left hj _
  have h2 : i * C + C = (i + 1) * C := by ring
  have h3 : (i + 1) * C ≤ 6 * C :=
    Nat.mul_le_mul_right C (Nat.succ_le_of_lt hi)
  exact lt_of_lt_of_le (h2 ▸ h1) h3

/-- `.split (self.n_embd, dim=-1)` (`dit.py` line 247): the `i`-th `C`-wide
chunk of a `6 * C`-wide tensor. -/
def split6 {B C : ℕ} (m : Fin B → Fin (6 * C) → ℚ) (i : Fin 6) :
    Tensor2 B C :=
  fun b j => m b ⟨i.val * C + j.val, six_chunk_lt i.isLt j.isLt⟩

/-- `gate_msa.unqueeze(1)` (`dit.py` line 252): `torch.Tensor` has no method
named `unqueeze` (the method is `unsqueeze`, used correctly at line 254), so
Python raises `AttributeError` as soon as this expression is evaluated. -/
def unqueeze1 {B C : ℕ} (g : Tensor2 B C) :
    Except String (Fin B → Fin 1 → Fin C → ℚ) :=
  let _ := g
  .error "AttributeError: torch.Tensor object has no attribute unqueeze"

/-- The cross-attention sub-step of `DiTBlock.forward` (`dit.py` line 253):
`x = x + self.cx_attn (self.ln2(x), c)`. -/
def DiTBlockRun.crossAttnStep {B T Tc C Cp : ℕ} (blk : DiTBlockRun B T Tc C Cp)
    (x : Tensor3 B T C) (c : Tensor3 B Tc C) : Tensor3 B T C :=
  fun b tt ch => x b tt ch + blk.cxAttnF (blk.ln2 x) c b tt ch

/-- The feed-forward sub-step of `DiTBlock.forward` (`dit.py` line 254):
`x = x + gate_mlp.unsqueeze(1) * self.mlp (modulate (self.ln3(x), shift_mlp,
scale_mlp))`. -/
def DiTBlockRun.mlpStep {B T Tc C Cp : ℕ} (blk : DiTBlockRun B T Tc C Cp)
    (x : Tensor3 B T C) (shift_mlp scale_mlp gate_mlp : Tensor2 B C) :
    Tensor3 B T C :=
  fun b tt ch =>
    x b tt ch +
      gate_mlp b ch * blk.mlpF (modulate (blk.ln3 x) shift_mlp scale_mlp) b tt ch

/-- `DiTBlock.forward` (`dit.py` lines 244-256): split the AdaLN projection of
`t` into the six modulation tensors, then the three residual sub-steps.
Python evaluates `gate_msa.unqueeze(1)` (line 252) before the self-attention
call, so the `AttributeError` fires there. -/
def DiTBlockRun.fwd {B T Tc C Cp : ℕ} (blk : DiTBlockRun B T Tc C Cp)
    (x : Tensor3 B T C) (c : Tensor3 B Tc C) (t : Tensor2 B Cp) :
    Except String (Tensor3 B T C) := do
  let m := blk.adaLN t
  let shift_msa := split6 m 0
  let scale_msa := split6 m 1
  let gate_msa := split6 m 2
  let shift_mlp := split6 m 3
  let scale_mlp := split6 m 4
  let gate_mlp := split6 m 5
  let g ← unqueeze1 gate_msa
  let x1 : Tensor3 B T C := fun b tt ch =>
    x b tt ch +
      g b 0 ch * blk.attnF (modulate (blk.ln1 x) shift_msa scale_msa) b tt ch
  let x2 := blk.crossAttnStep x1 c
  pure (blk.mlpStep x2 shift_mlp scale_mlp gate_mlp)

/-! ## Theorems -/

lemma rpow_half_eq_sqrt (x : ℝ) : x ^ (0.5 : ℝ) = Real.sqrt x := by
  rw [Real.sqrt_eq_rpow]
  norm_num

/-- C10: for every configuration whose construction completes, the hidden
width `H` computed by the shared round-up expression of
`FeedForwardNetwork.__init__` (line 61) and `FeedForwardECMoe.__init__`
(line 93) is a multiple of `hidden_base_mult` and is at least the requested
width `n_hidden`: rounding is always upward. -/
theorem hidden_width_rounds_up (n_hidden hidden_base_mult H : ℕ)
    (h : roundUpMult n_hidden hidden_base_mult = Except.ok H) :
    hidden_base_mult ∣ H ∧ n_hidden ≤ H := by
  unfold roundUpMult at h
  by_cases h0 : hidden_base_mult = 0
  · rw [if_pos h0] at h
    exact absurd h (by simp)
  · rw [if_neg h0] at h
    have hH : hidden_base_mult * ((n_hidden + hidden_base_mult - 1) / hidden_base_mult) = H :=
      Except.ok.inj h
    refine ⟨hH ▸ Dvd.intro _ rfl, ?_⟩
    rw [← hH]
    have hpos : 0 < hidden_base_mult := Nat.pos_of_ne_zero h0
    have hd := Nat.div_add_mod (n_hidden + hidden_base_mult - 1) hidden_base_mult
    have hm : (n_hidden + hidden_base_mult - 1) % hidden_base_mult < hidden_base_mult :=
      Nat.mod_lt _ hpos
    generalize hq : (n_hidden + hidden_base_mult - 1) / hidden_base_mult = q at hd ⊢
    generalize hp : hidden_base_mult * q = P at hd ⊢
    omega

theorem hidden_width_rounds_up_witness :
    roundUpMult 5 4 = Except.ok 8 ∧ (4 ∣ 8 ∧ 5 ≤ 8) :=
  ⟨rfl, hidden_width_rounds_up 5 4 8 rfl⟩

/-- C4, counterexample: the configuration `expert_capacity = 5`,
`num_experts = 2` with a `T = 4` token sequence computes
`tokens_per_expert = 10 > 4 = T`: the floor division alone does not
guarantee `L ≤ T`. -/
theorem tokens_per_expert_exceeds_tokens_cex :
    tokensPerExpert 5 4 2 = 10 ∧ ¬ tokensPerExpert 5 4 2 ≤ (4 : ℤ) := by
  norm_num [tokensPerExpert, pyInt]

/-- C4 (amended): the capacity `L = int(expert_capacity * T / num_experts)`
(`dit.py` line 111) satisfies `L ≤ T` whenever the capacity factor does not
exceed the number of experts (`expert_capacity ≤ num_experts`), for at least
one expert; without that bound `L` can exceed `T`. -/
theorem tokens_per_expert_le_tokens (cap : ℚ) (T E : ℕ) (hE : 1 ≤ E)
    (hcap : cap ≤ (E : ℚ)) : tokensPerExpert cap T E ≤ (T : ℤ) := by
  unfold tokensPerExpert
  have hEpos : (0 : ℚ) < (E : ℚ) := by exact_mod_cast hE
  have h : cap * (T : ℚ) / (E : ℚ) ≤ (T : ℚ) := by
    rw [div_le_iff₀ hEpos]
    have hT : (0 : ℚ) ≤ (T : ℚ) := by positivity
    nlinarith
  unfold pyInt
  split
  · exact_mod_cast (Int.floor_le_floor h).trans (by simp)
  · calc ⌈cap * (T : ℚ) / (E : ℚ)⌉ ≤ ⌈(T : ℚ)⌉ := Int.ceil_le_ceil h
      _ = (T : ℤ) := by exact_mod_cast Int.ceil_natCast T

theorem tokens_per_expert_le_tokens_witness :
    tokensPerExpert 1 7 2 ≤ (7 : ℤ) :=
  tokens_per_expert_le_tokens 1 7 2 (by norm_num) (by norm_num)

/-- C6: `weight_init_std` equals `0.02 / sqrt (3 * (block_index + 1))` when
`depth_init` and `0.02 / sqrt (3 * num_blocks)` otherwise; in particular
`0.02 / sqrt 3` for block 0 of 12 with depth-aware scaling, and
`0.02 / sqrt 36` for every block index without it. -/
theorem weight_init_std_formula :
    (∀ bi nb : ℕ,
        weight_init_std true bi nb = 0.02 / Real.sqrt (3 * ((bi : ℝ) + 1)) ∧
        weight_init_std false bi nb = 0.02 / Real.sqrt (3 * (nb : ℝ))) ∧
    weight_init_std true 0 12 = 0.02 / Real.sqrt 3 ∧
    (∀ bi : ℕ, weight_init_std false bi 12 = 0.02 / Real.sqrt 36) := by
  refine ⟨fun bi nb => ⟨?_, ?_⟩, ?_, fun bi => ?_⟩
  · simp only [weight_init_std, if_pos, rpow_half_eq_sqrt]
    push_cast
    rfl
  · simp only [weight_init_std, Bool.false_eq_true, if_false, rpow_half_eq_sqrt]
    push_cast
    rfl
  · simp only [weight_init_std, if_pos, rpow_half_eq_sqrt]
    norm_num
  · simp only [weight_init_std, Bool.false_eq_true, if_false, rpow_half_eq_sqrt]
    norm_num

/-- C8, counterexample: `FeedForwardNetwork.custom_init` passes `init_std`,
not the fixed `0.02`, as the standard deviation for the second up-projection
branch `fc2` (`dit.py` lines 71-72): with `init_std = 1` the `fc2` draw has
standard deviation `1`. -/
theorem ffn_custom_init_fc2_cex :
    (FeedForwardNetwork.custom_init 1).fc2 = 1 ∧
    (FeedForwardNetwork.custom_init 1).fc2 ≠ 0.02 := by
  constructor
  · rfl
  · norm_num [FeedForwardNetwork.custom_init]

/-- C8 (amended): `FeedForwardNetwork.custom_init` draws only the first
up-projection branch `fc1` from the fixed-width normal (std `0.02`); both the
second up-projection branch `fc2` and the down-projection `fc3` are drawn
from the block-specific `init_std` distribution, all truncated. -/
theorem ffn_custom_init_stds (init_std : ℚ) :
    (FeedForwardNetwork.custom_init init_std).fc1 = 0.02 ∧
    (FeedForwardNetwork.custom_init init_std).fc2 = init_std ∧
    (FeedForwardNetwork.custom_init init_std).fc3 = init_std :=
  ⟨rfl, rfl, rfl⟩

/-- C9, counterexample: with `qkv_n_hidden_mult = 1`, `n_embd = 12`,
`head_size = 4` (which satisfies `n_embd % head_size == 0`), the fast path at
`dit.py` line 199 sets `qkv_n_hidden = n_embd = 12`, which is not a multiple
of `2 * head_size = 8`. -/
theorem qkv_hidden_mult_one_cex :
    (12 : ℕ) % 4 = 0 ∧ qkvNHidden 12 4 1 = 12 ∧
    ¬ (2 * (4 : ℤ)) ∣ qkvNHidden 12 4 1 := by
  refine ⟨rfl, ?_, ?_⟩ <;> norm_num [qkvNHidden]

/-- C9 (amended): whenever `qkv_n_hidden_mult ≠ 1`, the derived
self-attention hidden width is the round-up at `dit.py` line 203 and is a
multiple of `2 * head_size`; on the `qkv_n_hidden_mult == 1` fast path the
width is `n_embd` itself, which need not be a multiple of `2 * head_size`. -/
theorem qkv_hidden_multiple_of_two_head_size (n_embd head_size : ℕ)
    (mult : ℚ) (hdvd : n_embd % head_size = 0) (hmult : mult ≠ 1) :
    (2 * (head_size : ℤ)) ∣ qkvNHidden n_embd head_size mult := by
  unfold qkvNHidden
  rw [if_neg hmult]
  exact Dvd.intro _ rfl

theorem qkv_hidden_multiple_of_two_head_size_witness :
    (2 * (4 : ℤ)) ∣ qkvNHidden 12 4 2 :=
  qkv_hidden_multiple_of_two_head_size 12 4 2 rfl (by norm_num)

/-- C2: `FeedForwardECMoe.__init__` never calls the `nn.Module` base-class
initializer, so for every argument tuple the constructor raises before
completing (at the `self.gate = nn.Linear (...)` assignment, or already at
the `//` of line 93 when `hidden_base_mult = 0`); consequently
`DiTBlock.__init__` with `use_moe = True` never completes either. -/
theorem ecmoe_ctor_always_raises :
    (∀ (nE : ℕ) (cap : ℚ) (ne nh hbm : ℕ),
        exceptIsOk (FeedForwardECMoe.init nE cap ne nh hbm) = false) ∧
    (∀ (ne hs : ℕ) (mm qm : ℚ) (hbm pc : ℕ) (di : Bool) (bi nb : ℕ)
        (sc ub : Bool) (nE : ℕ) (cap : ℚ),
        exceptIsOk
          (DiTBlock.init ne hs mm qm hbm pc di bi nb sc ub true nE cap) =
          false) := by
  have key : ∀ (nE : ℕ) (cap : ℚ) (ne nh hbm : ℕ), ∃ msg,
      FeedForwardECMoe.init nE cap ne nh hbm = Except.error msg := by
    intro nE cap ne nh hbm
    unfold FeedForwardECMoe.init roundUpMult
    by_cases h : hbm = 0
    · rw [if_pos h]
      exact ⟨_, rfl⟩
    · rw [if_neg h]
      exact ⟨_, rfl⟩
  constructor
  · intro nE cap ne nh hbm
    obtain ⟨msg, hmsg⟩ := key nE cap ne nh hbm
    rw [hmsg]
    rfl
  · intro ne hs mm qm hbm pc di bi nb sc ub nE cap
    unfold DiTBlock.init
    by_cases h : ne % hs ≠ 0
    · rw [if_pos h]
      rfl
    · rw [if_neg h]
      obtain ⟨msg, hmsg⟩ := key nE cap ne ((pyInt (mm * ne)).toNat) hbm
      simp only [if_true]
      rw [hmsg]
      rfl

/-- C1: for every runtime state and all inputs of the contracted shapes,
`DiTBlock.forward` raises `AttributeError` at `dit.py` line 252
(`gate_msa.unqueeze(1)`: the `torch.Tensor` method is `unsqueeze`, spelled
correctly at line 254), so it never returns a `(B, T, C)` tensor. -/
theorem ditblock_forward_always_raises {B T Tc C Cp : ℕ}
    (blk : DiTBlockRun B T Tc C Cp) (x : Tensor3 B T C) (c : Tensor3 B Tc C)
    (t : Tensor2 B Cp) :
    blk.fwd x c t =
      Except.error "AttributeError: torch.Tensor object has no attribute unqueeze" :=
  rfl

/-- C7: the cross-attention sub-step of `DiTBlock.forward` (`dit.py`
line 253) receives the normalized sequence `ln2(x)` directly and its result
is added to the residual stream unmodified: the step equals the would-be
modulated-and-gated form at identity parameters (shift 0, scale 0, gate 1)
and involves none of the six conditioning tensors, whereas the feed-forward
sub-step (line 254) is both modulated and gated by its conditioning
tensors. -/
theorem ditblock_cross_attention_unmodulated {B T Tc C Cp : ℕ}
    (blk : DiTBlockRun B T Tc C Cp) (x : Tensor3 B T C) (c : Tensor3 B Tc C) :
    (blk.crossAttnStep x c = fun b tt ch =>
      x b tt ch + blk.cxAttnF (blk.ln2 x) c b tt ch) ∧
    (blk.crossAttnStep x c = fun b tt ch =>
      x b tt ch +
        1 * blk.cxAttnF
            (modulate (blk.ln2 x) (fun _ _ => 0) (fun _ _ => 0)) c b tt ch) ∧
    (∀ shift scale gate : Tensor2 B C,
      blk.mlpStep x shift scale gate = fun b tt ch =>
        x b tt ch +
          gate b ch * blk.mlpF (modulate (blk.ln3 x) shift scale) b tt ch) := by
  refine ⟨rfl, ?_, fun shift scale gate => rfl⟩
  have hmod : modulate (blk.ln2 x) (fun _ _ => (0 : ℚ)) (fun _ _ => (0 : ℚ)) =
      blk.ln2 x := by
    funext b tt ch
    simp [modulate]
  rw [hmod]
  funext b tt ch
  rw [one_mul]
  rfl

/-- The identity on `ℚ`, a concrete stand-in for the abstract transcendental
kernels in concrete evaluations. -/
def idQ : ℚ → ℚ := fun q => q

/-- C5: when the computed per-expert capacity is zero (and at least one
expert exists, so line 111 divides successfully), `FeedForwardECMoe.forward`
returns the all-zero `(B, T, C)` tensor without raising: every expert selects
an empty token list and the final scatter-einsum contracts over an empty slot
axis. -/
theorem ecmoe_zero_capacity_all_zeros {E C H B T : ℕ}
    (moe : FeedForwardECMoe E C H) (expF geluF : ℚ → ℚ) (x : Tensor3 B T C)
    (hE : E ≠ 0) (h0 : tokensPerExpert moe.expert_capacity T E = 0) :
    moe.forward expF geluF x = Except.ok (fun _ _ _ => 0) := by
  unfold FeedForwardECMoe.forward
  rw [if_neg hE]
  dsimp only
  rw [if_pos ⟨le_of_eq h0.symm, h0 ▸ Int.natCast_nonneg T⟩]
  congr 1
  funext b t c
  unfold FeedForwardECMoe.out FeedForwardECMoe.selected
  rw [h0]
  simp [topkIdx]

/-- Concrete zero-capacity configuration for C5: capacity factor 1, two
experts, a single token (`tokens_per_expert = int(1 * 1 / 2) = 0`). -/
def zeroCapMoe : FeedForwardECMoe 2 1 1 :=
  ⟨1, fun _ _ => 1, fun _ _ _ => 1, fun _ _ _ => 1⟩

/-- Concrete `(1, 1, 1)` input for C5. -/
def zeroCapX : Tensor3 1 1 1 := fun _ _ _ => 1

theorem ecmoe_zero_capacity_all_zeros_witness :
    zeroCapMoe.forward idQ idQ zeroCapX = Except.ok (fun _ _ _ => 0) :=
  ecmoe_zero_capacity_all_zeros zeroCapMoe idQ idQ zeroCapX (by norm_num)
    (by norm_num [zeroCapMoe, tokensPerExpert, pyInt])

/-- Concrete over-capacity configuration for C3's counterexample: capacity
factor 5, two experts. -/
def overCapMoe : FeedForwardECMoe 2 1 1 :=
  ⟨5, fun _ _ => 1, fun _ _ _ => 1, fun _ _ _ => 1⟩

/-- Concrete `(1, 4, 1)` input for C3's counterexample. -/
def overCapX : Tensor3 1 4 1 := fun _ _ _ => 1

/-- C3, counterexample: with capacity factor 5, two experts and `T = 4`
tokens, `tokens_per_expert = 10` and `torch.topk` (line 121) raises instead
of selecting: no expert selects any tokens, so the claim's universally
quantified selection property fails at this configuration. -/
theorem ecmoe_selection_raises_cex :
    tokensPerExpert (5 : ℚ) 4 2 = 10 ∧
    overCapMoe.forward idQ idQ overCapX =
      Except.error "RuntimeError: selected index k out of range" := by
  have hk : tokensPerExpert overCapMoe.expert_capacity 4 2 = 10 := by
    norm_num [overCapMoe, tokensPerExpert, pyInt]
  refine ⟨by norm_num [tokensPerExpert, pyInt], ?_⟩
  unfold FeedForwardECMoe.forward
  rw [if_neg (by norm_num : (2 : ℕ) ≠ 0)]
  dsimp only
  rw [hk, if_neg (by norm_num)]

/-- C3 (amended): whenever the computed `tokens_per_expert` is in
`torch.topk` range (`0 ≤ L ≤ T`, which holds in particular when
`0 ≤ capacity_factor ≤ num_experts`), `FeedForwardECMoe.forward` succeeds and
each expert selects exactly `L` distinct tokens, the same count for every
expert and every batch element; outside that range `topk` raises. -/
theorem ecmoe_each_expert_selects_capacity {E C H B T : ℕ}
    (moe : FeedForwardECMoe E C H) (expF geluF : ℚ → ℚ) (x : Tensor3 B T C)
    (hE : E ≠ 0) (h0 : 0 ≤ tokensPerExpert moe.expert_capacity T E)
    (hT : tokensPerExpert moe.expert_capacity T E ≤ (T : ℤ)) :
    moe.forward expF geluF x = Except.ok (moe.out expF geluF x) ∧
    ∀ (b : Fin B) (e : Fin E),
      (moe.selected expF x b e).length =
        (tokensPerExpert moe.expert_capacity T E).toNat ∧
      (moe.selected expF x b e).Nodup := by
  constructor
  · unfold FeedForwardECMoe.forward
    rw [if_neg hE]
    dsimp only
    rw [if_pos ⟨h0, hT⟩]
  · intro b e
    constructor
    · unfold FeedForwardECMoe.selected topkIdx
      rw [List.length_take, List.length_mergeSort, List.length_finRange]
      have hle : (tokensPerExpert moe.expert_capacity T E).toNat ≤ T :=
        Int.toNat_le.mpr hT
      omega
    · unfold FeedForwardECMoe.selected topkIdx
      exact List.Sublist.nodup (List.take_sublist _ _)
        (((List.mergeSort_perm _ _).nodup_iff).mpr (List.nodup_finRange T))

/-- Concrete in-range configuration for C3's witness: capacity factor 1, two
experts. -/
def capOneMoe : FeedForwardECMoe 2 1 1 :=
  ⟨1, fun _ _ => 1, fun _ _ _ => 1, fun _ _ _ => 1⟩

/-- Concrete `(1, 7, 1)` input for C3's witness
(`tokens_per_expert = int(1 * 7 / 2) = 3`). -/
def capOneX : Tensor3 1 7 1 := fun _ _ _ => 1

theorem ecmoe_each_expert_selects_capacity_witness :
    (capOneMoe.selected idQ capOneX 0 0).length =
      (tokensPerExpert capOneMoe.expert_capacity 7 2).toNat ∧
    (capOneMoe.selected idQ capOneX 0 0).Nodup :=
  (ecmoe_each_expert_selects_capacity capOneMoe idQ idQ capOneX
    (by norm_num)
    (by norm_num [capOneMoe, tokensPerExpert, pyInt])
    (by norm_num [capOneMoe, tokensPerExpert, pyInt])).2 0 0

end DiT
